import Mathlib

/-
Verification of the asynchronous job-tracking and state-reconciliation core
of the legal-document client.

The TypeScript source is embedded shallowly: React state updates become
explicit state passing on an `AppState` record, each network round-trip is
represented by an explicit response value (one constructor per outcome the
code distinguishes), and the polling loop of `handleFileUploaded` becomes a
fuel-indexed recursive function whose fuel is the `maxAttempts` budget of the
source.  Timestamps (`Date.now()`, `toISOString()`) are passed in as
parameters.
-/

namespace LegalAI

/-- Mirrors the `Document` interface of `App.tsx` (the fields the core
reads: identity and the file name used for correlation). -/
structure Document where
  id : String
  file_name : String
deriving DecidableEq

/-- Message roles of the `ChatMessage` interface. -/
inductive Role where
  | user
  | assistant
  | system
deriving DecidableEq

/-- Mirrors the `ChatMessage` interface of `App.tsx`. -/
structure ChatMessage where
  id : String
  role : Role
  message : String
  created_at : String
deriving DecidableEq

/-- The React state of the `App` component: `documents`,
`selectedDocument`, `chatHistory`, `isLoading`, `error`. -/
structure AppState where
  documents : List Document
  selectedDocument : Option Document
  chatHistory : List ChatMessage
  isLoading : Bool
  error : Option String
deriving DecidableEq

/-- Outcome of the `POST /api/chat/{id}` round-trip in `handleSendMessage`:
an OK response carrying `data.message`, a non-OK response, or a rejected
fetch carrying the thrown error's message. -/
inductive ChatSendResponse where
  | ok (text : String)
  | httpError
  | networkError (errMessage : String)

/-- The optimistic user message built in `handleSendMessage`:
`id = Date.now().toString()`, `role = user`, `created_at = new
Date().toISOString()`. -/
def mkUserMessage (now : Nat) (nowIso msg : String) : ChatMessage :=
  { id := toString now, role := Role.user, message := msg, created_at := nowIso }

/-- The assistant message built in `handleSendMessage` on success:
`id = (Date.now() + 1).toString()`, `role = assistant`. -/
def mkAssistantMessage (now : Nat) (nowIso text : String) : ChatMessage :=
  { id := toString (now + 1), role := Role.assistant, message := text,
    created_at := nowIso }

/-- State of `handleSendMessage` after the synchronous prefix (set
`isLoading`, append the optimistic user message) and before the backend
call is issued. -/
def sendMessageOptimistic (st : AppState) (msg : String) (now : Nat)
    (nowIso : String) : AppState :=
  { st with isLoading := true,
            chatHistory := st.chatHistory ++ [mkUserMessage now nowIso msg] }

/-- Completion of `handleSendMessage` from the post-optimistic state:
on OK append the assistant reply, on a non-OK response set the error
banner, on a rejected fetch set the error banner with the thrown message;
the `finally` block clears `isLoading` in every case.  The optimistic user
message is never removed. -/
def sendMessageComplete (st1 : AppState) (resp : ChatSendResponse)
    (now : Nat) (nowIso : String) : AppState :=
  match resp with
  | ChatSendResponse.ok text =>
      { st1 with chatHistory := st1.chatHistory ++ [mkAssistantMessage now nowIso text],
                 isLoading := false }
  | ChatSendResponse.httpError =>
      { st1 with error := some "Failed to send message", isLoading := false }
  | ChatSendResponse.networkError m =>
      { st1 with error := some ("Failed to send message: " ++ m), isLoading := false }

/-- `handleSendMessage` of `App.tsx`.  Returns the final state and whether
a network request was issued.  The guard `if (!selectedDocument) return;`
precedes every state write, so with no selection the state is returned
untouched and no request happens. -/
def handleSendMessage (st : AppState) (msg : String) (now : Nat)
    (nowIso : String) (resp : ChatSendResponse) : AppState × Bool :=
  match st.selectedDocument with
  | none => (st, false)
  | some _ =>
      (sendMessageComplete (sendMessageOptimistic st msg now nowIso) resp now nowIso,
       true)

/-- Outcome of the `GET /api/chat/{id}/history` round-trip in
`loadChatHistory`. -/
inductive HistoryResponse where
  | ok (chats : List ChatMessage)
  | httpError
  | networkError

/-- `loadChatHistory` of `App.tsx`: on OK replace the history with
`data.chats || []`; on a non-OK response or a rejected fetch replace it
with `[]`; the `finally` block clears `isLoading`. -/
def loadChatHistory (st : AppState) (resp : HistoryResponse) : AppState :=
  match resp with
  | HistoryResponse.ok chats => { st with chatHistory := chats, isLoading := false }
  | HistoryResponse.httpError => { st with chatHistory := [], isLoading := false }
  | HistoryResponse.networkError => { st with chatHistory := [], isLoading := false }

/-- The matching predicate of the document-selection step (both in
`handleFileUploaded`'s immediate path and in `pollForCompletion`'s done
branch): `d.file_name === filename || (document_id && d.id ===
document_id)`.  The file-name test is the left disjunct. -/
def docMatches (fname : String) (docId : Option String) (d : Document) : Bool :=
  d.file_name == fname ||
    (match docId with
     | some i => d.id == i
     | none => false)

/-- The `.find(...)` call locating the newly processed document in the
refreshed collection: the first list element satisfying `docMatches`. -/
def findNewDoc (docs : List Document) (fname : String)
    (docId : Option String) : Option Document :=
  docs.find? (docMatches fname docId)

/-- The state writes of `pollForCompletion`'s done branch once the new
document was located: `setDocuments(data.documents || []);
setSelectedDocument(newDoc); setIsLoading(false)`.  No field of the prior
state is consulted — in particular not `selectedDocument`. -/
def applyPollDone (st : AppState) (docs : List Document)
    (newDoc : Document) : AppState :=
  { st with documents := docs, selectedDocument := some newDoc,
            isLoading := false }

/-- Outcome of the `GET /api/documents` refresh performed inside the done
branch: an OK response carrying the document list, a non-OK response, or a
rejected fetch. -/
inductive DocsRefresh where
  | ok (docs : List Document)
  | fail
  | throws

/-- Body of a `GET /api/process/status/{fileId}` OK response as the loop
inspects it: `status` is `done` (with the optional `document_id` and the
subsequent document refresh it triggers), `error`, or anything else
(pending). -/
inductive StatusData where
  | pending
  | errorStatus
  | done (document_id : Option String) (refresh : DocsRefresh)

/-- Outcome of one status fetch of the polling loop: a rejected fetch
(transport failure), a 404, any other non-OK response, or an OK response
with a body. -/
inductive AttemptOutcome where
  | throws
  | notFound
  | httpOther
  | ok (data : StatusData)

/-- A terminal UI callback of the polling loop: either the new document
got selected or `setError` fired with the given banner text. -/
inductive TerminalEvent where
  | selected (d : Document)
  | errorMsg (s : String)
deriving DecidableEq

/-- Observable result of one `pollForCompletion` run: the terminal UI
callbacks in order, the number of status fetches issued, and whether the
run was aborted by an exception escaping the (un-awaited) async loop. -/
structure PollResult where
  events : List TerminalEvent
  checks : Nat
  escaped : Bool
deriving DecidableEq

def notFoundErrorMsg : String :=
  "Processing file not found on server. Please re-upload and try again."

def processingFailedMsg : String :=
  "Document processing failed. Please try again."

def processingTimeoutMsg : String :=
  "Document processing timed out. Please check and try again."

/-- The `while (attempts < maxAttempts)` loop of `pollForCompletion` in
`App.tsx`.  `k` numbers the status fetches (indexing the environment
`resp`), `fuel` is `maxAttempts - attempts`.  One iteration: issue the
fetch; a rejected fetch escapes the async function uncaught (no catch
inside the loop and the loop's promise is not awaited); 404 sets the
re-upload error and breaks; a done status refreshes the documents and
either selects the located document or breaks silently; an error status
sets the failure banner and breaks; a non-OK response or a pending status
falls through to `attempts++`.  When the loop exhausts,
`attempts >= maxAttempts` holds and the timeout banner is set. -/
def pollGo (resp : Nat → AttemptOutcome) (fname : String) :
    Nat → Nat → PollResult
  | _, 0 => { events := [TerminalEvent.errorMsg processingTimeoutMsg],
              checks := 0, escaped := false }
  | k, fuel + 1 =>
    match resp k with
    | AttemptOutcome.throws => { events := [], checks := 1, escaped := true }
    | AttemptOutcome.notFound =>
        { events := [TerminalEvent.errorMsg notFoundErrorMsg],
          checks := 1, escaped := false }
    | AttemptOutcome.httpOther =>
        let r := pollGo resp fname (k + 1) fuel
        { r with checks := r.checks + 1 }
    | AttemptOutcome.ok StatusData.pending =>
        let r := pollGo resp fname (k + 1) fuel
        { r with checks := r.checks + 1 }
    | AttemptOutcome.ok StatusData.errorStatus =>
        { events := [TerminalEvent.errorMsg processingFailedMsg],
          checks := 1, escaped := false }
    | AttemptOutcome.ok (StatusData.done _ DocsRefresh.fail) =>
        { events := [], checks := 1, escaped := false }
    | AttemptOutcome.ok (StatusData.done _ DocsRefresh.throws) =>
        { events := [], checks := 1, escaped := true }
    | AttemptOutcome.ok (StatusData.done docId (DocsRefresh.ok docs)) =>
        match findNewDoc docs fname docId with
        | some d => { events := [TerminalEvent.selected d], checks := 1,
                      escaped := false }
        | none => { events := [], checks := 1, escaped := false }

/-- `pollForCompletion` of `handleFileUploaded`: the loop started with
`attempts = 0` and `maxAttempts = 60`. -/
def pollForCompletion (resp : Nat → AttemptOutcome) (fname : String) :
    PollResult :=
  pollGo resp fname 0 60

/-- Body of a status response as `ProcessingStatus.pollStatus`'s interval
callback inspects it: `status === 'done'` with `data.result` present or
absent, or any other status. -/
inductive TickData where
  | done (result : Option String)
  | otherStatus

/-- Outcome of one interval tick's status fetch in
`ProcessingStatus.pollStatus`: an OK response with a body, or a rejected
fetch (caught inside the callback and logged). -/
inductive TickOutcome where
  | ok (data : TickData)
  | throws

/-- One tick of `ProcessingStatus.pollStatus`'s `setInterval` callback.
Returns the argument `onComplete` is invoked with (or `none`) and whether
the interval was cleared.  The `cancelled` flag of the surrounding effect
is accepted as a parameter to record that the callback never reads it:
when `status === 'done'` and a result is present, the interval is cleared
and `onComplete(result)` is invoked with no cancellation check; a thrown
error is caught and polling continues. -/
def pollStatusTick (cancelled : Bool) (t : TickOutcome) :
    Option String × Bool :=
  match cancelled, t with
  | _, TickOutcome.ok (TickData.done (some r)) => (some r, true)
  | _, TickOutcome.ok (TickData.done none) => (none, false)
  | _, TickOutcome.ok TickData.otherStatus => (none, false)
  | _, TickOutcome.throws => (none, false)

/-- The clause shape `ClauseVisualizer`'s enrichment effect reads:
identity, text, and the artifacts possibly embedded in the clause object
(an absent or empty `scenarios`/`legal_references` array is modelled as
`[]`, exactly the condition `!c.scenarios || c.scenarios.length === 0`). -/
structure VClause where
  id : String
  clause_text : String
  scenarios : List String
  legal_references : List String
deriving DecidableEq

/-- The guard of `fetchForClause` deciding whether a what-if-scenarios
request is issued for clause `c`:
`(!c.scenarios || c.scenarios.length === 0) && c.clause_text`.  It reads
only the clause object — neither `scenariosById` nor any in-flight
record. -/
def scenarioRequestIssued (c : VClause) : Bool :=
  c.scenarios.isEmpty && c.clause_text != ""

/-- The guard of `fetchForClause` for the legal-references request. -/
def referenceRequestIssued (c : VClause) : Bool :=
  c.legal_references.isEmpty && c.clause_text != ""

/-- The what-if-scenarios requests issued by one invocation of the
enrichment effect (`clauses.forEach(c => fetchForClause(c))`), as the list
of clause ids requested. -/
def enrichScenarioRequests (clauses : List VClause) : List String :=
  (clauses.filter scenarioRequestIssued).map VClause.id

/-- The what-if-scenarios requests issued across `n` invocations of the
enrichment effect on the same clause list (the effect re-runs whenever its
`[clauses, documentType]` dependencies change identity, e.g. on a
re-render building a fresh array).  Each invocation issues its requests
independently: the guard consults no cache and no in-flight record. -/
def enrichRequestsOverTriggers (clauses : List VClause) : Nat → List String
  | 0 => []
  | n + 1 => enrichScenarioRequests clauses ++ enrichRequestsOverTriggers clauses n

/-- Clause rows as the undo handler of `ChatInterface` filters them (the
filter reads `c.id`). -/
structure Clause where
  id : String
  clause_text : String
deriving DecidableEq

/-- Outcome of the `POST /api/analysis/clauses/{id}/undo` round-trip. -/
inductive UndoResponse where
  | ok
  | httpError
  | networkError

/-- The undo toast action of `ChatInterface` (`onAction` of the
persist-toast): on an OK response run
`setClauses(prev => prev.filter(c => !ids.includes(c.id)))` and
`setPersistedByDocument(prev => ({...prev, [document.id]: false}))`;
on a non-OK response or a rejected fetch only log — no state changes.
The `persistedByDocument` record is modelled as an association list whose
head entry shadows older ones, matching object-spread lookup. -/
def undoPersistedClauses (clauses : List Clause)
    (persisted : List (String × Bool)) (docId : String)
    (ids : List String) (resp : UndoResponse) :
    List Clause × List (String × Bool) :=
  match resp with
  | UndoResponse.ok =>
      (clauses.filter (fun c => !ids.contains c.id), (docId, false) :: persisted)
  | UndoResponse.httpError => (clauses, persisted)
  | UndoResponse.networkError => (clauses, persisted)

/-- Concrete documents used in closed instances below. -/
def exDocA : Document := { id := "d2", file_name := "a.pdf" }

def exDocB : Document := { id := "d1", file_name := "b.pdf" }

def exSwitchedState : AppState :=
  { documents := [exDocB], selectedDocument := some exDocB,
    chatHistory := [], isLoading := true, error := none }

def exSelectedState : AppState :=
  { documents := [exDocA], selectedDocument := some exDocA,
    chatHistory := [], isLoading := false, error := none }

def exNoSelectionState : AppState :=
  { documents := [], selectedDocument := none,
    chatHistory := [], isLoading := false, error := none }

theorem pollGo_checks_le (resp : Nat → AttemptOutcome) (fname : String) :
    ∀ fuel k, (pollGo resp fname k fuel).checks ≤ fuel := by
  intro fuel
  induction fuel with
  | zero => intro k; simp [pollGo]
  | succ n ih =>
    intro k
    cases h : resp k with
    | throws => simp [pollGo, h]
    | notFound => simp [pollGo, h]
    | httpOther =>
        simp only [pollGo, h]
        exact Nat.succ_le_succ (ih (k + 1))
    | ok data =>
      cases data with
      | pending =>
          simp only [pollGo, h]
          exact Nat.succ_le_succ (ih (k + 1))
      | errorStatus => simp [pollGo, h]
      | done docId refresh =>
        cases refresh with
        | ok docs =>
          cases hf : findNewDoc docs fname docId with
          | some d => simp [pollGo, h, hf]
          | none => simp [pollGo, h, hf]
        | fail => simp [pollGo, h]
        | throws => simp [pollGo, h]

theorem pollGo_events_len_le (resp : Nat → AttemptOutcome) (fname : String) :
    ∀ fuel k, (pollGo resp fname k fuel).events.length ≤ 1 := by
  intro fuel
  induction fuel with
  | zero => intro k; simp [pollGo]
  | succ n ih =>
    intro k
    cases h : resp k with
    | throws => simp [pollGo, h]
    | notFound => simp [pollGo, h]
    | httpOther =>
        simp only [pollGo, h]
        exact ih (k + 1)
    | ok data =>
      cases data with
      | pending =>
          simp only [pollGo, h]
          exact ih (k + 1)
      | errorStatus => simp [pollGo, h]
      | done docId refresh =>
        cases refresh with
        | ok docs =>
          cases hf : findNewDoc docs fname docId with
          | some d => simp [pollGo, h, hf]
          | none => simp [pollGo, h, hf]
        | fail => simp [pollGo, h]
        | throws => simp [pollGo, h]

theorem pollGo_const_pending (fname : String) :
    ∀ fuel k, pollGo (fun _ => AttemptOutcome.ok StatusData.pending) fname k fuel
      = { events := [TerminalEvent.errorMsg processingTimeoutMsg],
          checks := fuel, escaped := false } := by
  intro fuel
  induction fuel with
  | zero => intro k; simp [pollGo]
  | succ n ih => intro k; simp [pollGo, ih (k + 1)]

theorem pollGo_const_httpOther (fname : String) :
    ∀ fuel k, pollGo (fun _ => AttemptOutcome.httpOther) fname k fuel
      = { events := [TerminalEvent.errorMsg processingTimeoutMsg],
          checks := fuel, escaped := false } := by
  intro fuel
  induction fuel with
  | zero => intro k; simp [pollGo]
  | succ n ih => intro k; simp [pollGo, ih (k + 1)]

theorem pollGo_throws_first (resp : Nat → AttemptOutcome) (fname : String)
    (k fuel : Nat) (h : resp k = AttemptOutcome.throws) :
    pollGo resp fname k (fuel + 1)
      = { events := [], checks := 1, escaped := true } := by
  simp [pollGo, h]

/-- C1: for a cancelled poller run, no further status checks are performed
and the completion and error callbacks are never invoked after
cancellation.  The code violates this: the interval callback of
`ProcessingStatus.pollStatus` invokes `onComplete` on a done status
without consulting the `cancelled` flag of the surrounding effect, so a
response pending at cancellation that later resolves done still fires the
callback.  This theorem evaluates the embedded tick at the failing input
`cancelled = true`. -/
theorem pollStatusTick_fires_after_cancel :
    pollStatusTick true (TickOutcome.ok (TickData.done (some "result")))
      = (some "result", true) := rfl

/-- C2 (amended): the done branch of `pollForCompletion` applies its
result unconditionally — it selects the located document and replaces the
document list without any check of which document is currently active, so
the outcome is independent of the prior selection and always ends with the
job document selected. -/
theorem applyPollDone_no_stale_guard (st : AppState) (docs : List Document)
    (d : Document) (sel : Option Document) :
    (applyPollDone st docs d).selectedDocument = some d
  ∧ applyPollDone { st with selectedDocument := sel } docs d
      = applyPollDone st docs d := by
  exact ⟨rfl, rfl⟩

/-- C2 counterexample: with document `exDocB` active (the user switched to
it mid-poll), the done handler of the poll owned by `exDocA` still applies
its result and selects `exDocA`, contradicting the claim that a stale poll
response is never applied. -/
theorem applyPollDone_overwrites_switched_selection :
    exSwitchedState.selectedDocument = some exDocB
  ∧ exDocA ≠ exDocB
  ∧ (applyPollDone exSwitchedState [exDocA, exDocB] exDocA).selectedDocument
      = some exDocA := by
  refine ⟨rfl, by decide, rfl⟩

/-- C3 (amended): for every `pollForCompletion` run the number of status
checks never exceeds `maxAttempts = 60` and at most one terminal callback
fires — never two, but possibly zero when a done status is followed by a
failed or unconfirmed document refresh; if every check returns pending the
run ends with the user-visible timeout error after exactly 60 checks. -/
theorem pollForCompletion_budget (resp : Nat → AttemptOutcome) (fname : String) :
    (pollForCompletion resp fname).checks ≤ 60
  ∧ (pollForCompletion resp fname).events.length ≤ 1
  ∧ pollForCompletion (fun _ => AttemptOutcome.ok StatusData.pending) fname
      = { events := [TerminalEvent.errorMsg processingTimeoutMsg],
          checks := 60, escaped := false } := by
  refine ⟨pollGo_checks_le resp fname 60 0, pollGo_events_len_le resp fname 60 0, ?_⟩
  exact pollGo_const_pending fname 60 0

/-- C3 counterexample: a run whose first status response is done but whose
subsequent document-list refresh fails terminates with zero terminal
callbacks — neither a selection nor an error — although it was never
cancelled, contradicting the claim that exactly one terminal callback
fires. -/
theorem pollForCompletion_silent_run :
    pollForCompletion
        (fun _ => AttemptOutcome.ok (StatusData.done none DocsRefresh.fail))
        "a.pdf"
      = { events := [], checks := 1, escaped := false } := rfl

/-- C4 (amended): a non-OK HTTP status response during a poll attempt is
swallowed and consumes one unit of the attempt budget, so a run whose
every check fails at the HTTP level ends in the timeout error after 60
checks; a transport-level fetch rejection, however, is not swallowed — it
escapes the un-awaited async loop as an uncaught exception, aborting the
run after that single check with no further attempts and no poller
error callback. -/
theorem pollForCompletion_networkFailure (resp : Nat → AttemptOutcome)
    (fname : String) (h : resp 0 = AttemptOutcome.throws) :
    pollForCompletion (fun _ => AttemptOutcome.httpOther) fname
      = { events := [TerminalEvent.errorMsg processingTimeoutMsg],
          checks := 60, escaped := false }
  ∧ pollForCompletion resp fname
      = { events := [], checks := 1, escaped := true } := by
  refine ⟨pollGo_const_httpOther fname 60 0, ?_⟩
  exact pollGo_throws_first resp fname 0 59 h

theorem pollForCompletion_networkFailure_witness :
    pollForCompletion (fun _ => AttemptOutcome.throws) "b.pdf"
      = { events := [], checks := 1, escaped := true } :=
  (pollForCompletion_networkFailure (fun _ => AttemptOutcome.throws) "b.pdf" rfl).2

/-- C4 counterexample: under repeated transport failure the run does not
end in a timeout — the very first rejected fetch aborts the loop as an
uncaught exception after one check, with no terminal callback. -/
theorem pollForCompletion_transport_aborts :
    pollForCompletion (fun _ => AttemptOutcome.throws) "a.pdf"
      = { events := [], checks := 1, escaped := true } := rfl

/-- C5 (amended): the enrichment guard of `fetchForClause` reads only the
clause object (embedded artifacts and nonempty text), consulting neither
the `scenariosById` cache nor any in-flight record, so `n` enrichment
triggers for a clause lacking embedded scenarios issue exactly `n`
what-if-scenarios requests — one per trigger — and zero for a clause whose
artifacts are embedded or whose text is empty. -/
theorem enrichRequests_linear_in_triggers (c : VClause) :
    ∀ n : Nat, (enrichRequestsOverTriggers [c] n).count c.id
      = if scenarioRequestIssued c then n else 0 := by
  intro n
  induction n with
  | zero => simp [enrichRequestsOverTriggers]
  | succ m ih =>
    by_cases h : scenarioRequestIssued c
    · simp [enrichRequestsOverTriggers, enrichScenarioRequests, List.filter, h,
        List.count_append, ih]
    · simp [enrichRequestsOverTriggers, enrichScenarioRequests, List.filter, h,
        List.count_append, ih]

/-- C5 counterexample: two enrichment triggers for the same clause id
(e.g. the effect re-running on a re-render that rebuilds the clauses
array) issue two what-if-scenarios requests for that clause, contradicting
the claimed at-most-one per clause per mount. -/
theorem enrich_two_triggers_two_requests :
    (enrichRequestsOverTriggers
        [{ id := "c1", clause_text := "Indemnity clause text",
           scenarios := [], legal_references := [] }] 2).count "c1" = 2 := by
  decide

/-- C6 (amended): the orchestrator locates the new entry as the first
document in the refreshed list satisfying the disjunction (file name
equals the uploaded filename, or the server-confirmed id is known and
equals the document id); a match earlier in the list wins regardless of
which disjunct it satisfies, so id matching is not preferred over
file-name matching. -/
theorem findNewDoc_first_match (fname : String) (docId : Option String) :
    ∀ (docs1 docs2 : List Document) (d : Document),
      (∀ e ∈ docs1, docMatches fname docId e = false) →
      docMatches fname docId d = true →
      findNewDoc (docs1 ++ d :: docs2) fname docId = some d := by
  intro docs1
  induction docs1 with
  | nil =>
      intro docs2 d _ hd
      simp [findNewDoc, List.find?_cons_of_pos, hd]
  | cons x xs ih =>
      intro docs2 d h1 hd
      have hx : docMatches fname docId x = false := h1 x (by simp)
      have hrest := ih docs2 d (fun e he => h1 e (by simp [he])) hd
      simpa [findNewDoc, List.find?_cons_of_neg, hx] using hrest

theorem findNewDoc_first_match_witness :
    findNewDoc [{ id := "x", file_name := "c.pdf" },
                { id := "d9", file_name := "a.pdf" }] "a.pdf" (some "zz")
      = some { id := "d9", file_name := "a.pdf" } := by
  exact findNewDoc_first_match "a.pdf" (some "zz")
    [{ id := "x", file_name := "c.pdf" }] []
    { id := "d9", file_name := "a.pdf" } (by decide) (by decide)

/-- C6 counterexample: the refreshed list holds a document whose id equals
the server-confirmed id (`exDocB`, id `d1`) and an earlier document whose
file name matches the uploaded filename (`exDocA`); the code selects the
file-name match, not the id match, contradicting the claimed id-first
preference. -/
theorem findNewDoc_prefers_filename :
    findNewDoc [exDocA, exDocB] "a.pdf" (some "d1") = some exDocA
  ∧ exDocB ∈ [exDocA, exDocB]
  ∧ exDocB.id = "d1"
  ∧ exDocA.id ≠ "d1" := by
  refine ⟨by decide, by simp, rfl, by decide⟩

/-- C7: `sendMessage` appends the locally-constructed user message before
the backend call is issued (it is already present in the pre-request
state), appends the returned assistant message after it on success, and on
either failure mode surfaces an error while the optimistic user message
remains appended — it is never rolled back. -/
theorem handleSendMessage_optimistic_append (st : AppState) (d : Document)
    (h : st.selectedDocument = some d) (msg nowIso : String) (now : Nat) :
    (sendMessageOptimistic st msg now nowIso).chatHistory
      = st.chatHistory ++ [mkUserMessage now nowIso msg]
  ∧ (∀ text, (handleSendMessage st msg now nowIso (ChatSendResponse.ok text)).1
      = { st with
          chatHistory := st.chatHistory ++
            [mkUserMessage now nowIso msg, mkAssistantMessage now nowIso text],
          isLoading := false })
  ∧ ((handleSendMessage st msg now nowIso ChatSendResponse.httpError).1
      = { st with
          chatHistory := st.chatHistory ++ [mkUserMessage now nowIso msg],
          error := some "Failed to send message",
          isLoading := false })
  ∧ (∀ em, (handleSendMessage st msg now nowIso (ChatSendResponse.networkError em)).1
      = { st with
          chatHistory := st.chatHistory ++ [mkUserMessage now nowIso msg],
          error := some ("Failed to send message: " ++ em),
          isLoading := false }) := by
  refine ⟨rfl, ?_, ?_, ?_⟩
  · intro text
    simp [handleSendMessage, h, sendMessageOptimistic, sendMessageComplete]
  · simp [handleSendMessage, h, sendMessageOptimistic, sendMessageComplete]
  · intro em
    simp [handleSendMessage, h, sendMessageOptimistic, sendMessageComplete]

theorem handleSendMessage_optimistic_append_witness :
    (handleSendMessage exSelectedState "summarize this" 5 "t0"
        ChatSendResponse.httpError).1
      = { exSelectedState with
          chatHistory := [mkUserMessage 5 "t0" "summarize this"],
          error := some "Failed to send message", isLoading := false } := by
  have h := (handleSendMessage_optimistic_append exSelectedState exDocA rfl
    "summarize this" "t0" 5).2.2.1
  simpa [exSelectedState] using h

/-- C8: on a successful undo call, exactly the given clause ids are
removed from the local clause list and the persisted flag of the document
is set back to false; on a non-OK response or a rejected fetch the clause
list and the flag record are left entirely unchanged. -/
theorem undoPersistedClauses_allOrNothing (clauses : List Clause)
    (persisted : List (String × Bool)) (docId : String) (ids : List String) :
    (∀ c : Clause,
        c ∈ (undoPersistedClauses clauses persisted docId ids UndoResponse.ok).1
      ↔ (c ∈ clauses ∧ ids.contains c.id = false))
  ∧ ((undoPersistedClauses clauses persisted docId ids UndoResponse.ok).2.lookup docId
      = some false)
  ∧ (undoPersistedClauses clauses persisted docId ids UndoResponse.httpError
      = (clauses, persisted))
  ∧ (undoPersistedClauses clauses persisted docId ids UndoResponse.networkError
      = (clauses, persisted)) := by
  refine ⟨?_, ?_, rfl, rfl⟩
  · intro c
    simp [undoPersistedClauses, List.mem_filter]
  · simp [undoPersistedClauses, List.lookup]

theorem undoPersistedClauses_allOrNothing_witness :
    ((⟨"c2", "t2"⟩ : Clause)
        ∈ (undoPersistedClauses [⟨"c1", "t1"⟩, ⟨"c2", "t2"⟩] [("d", true)]
            "d" ["c1"] UndoResponse.ok).1)
  ∧ (undoPersistedClauses [⟨"c1", "t1"⟩, ⟨"c2", "t2"⟩] [("d", true)]
        "d" ["c1"] UndoResponse.ok).2.lookup "d" = some false := by
  constructor
  · exact ((undoPersistedClauses_allOrNothing [⟨"c1", "t1"⟩, ⟨"c2", "t2"⟩]
      [("d", true)] "d" ["c1"]).1 ⟨"c2", "t2"⟩).mpr ⟨by decide, by decide⟩
  · exact (undoPersistedClauses_allOrNothing [⟨"c1", "t1"⟩, ⟨"c2", "t2"⟩]
      [("d", true)] "d" ["c1"]).2.1

/-- C9: with no document selected, `sendMessage` is a no-op — the state
(history, loading flag, error) is returned unchanged and no network
request is issued, for every input text and every possible backend
response. -/
theorem handleSendMessage_noop_without_selection (st : AppState)
    (h : st.selectedDocument = none) (msg nowIso : String) (now : Nat)
    (resp : ChatSendResponse) :
    handleSendMessage st msg now nowIso resp = (st, false) := by
  simp [handleSendMessage, h]

theorem handleSendMessage_noop_without_selection_witness :
    handleSendMessage exNoSelectionState "hello" 7 "t1" ChatSendResponse.httpError
      = (exNoSelectionState, false) :=
  handleSendMessage_noop_without_selection exNoSelectionState rfl "hello" "t1" 7
    ChatSendResponse.httpError

/-- C10: when the history request fails — non-OK response or rejected
fetch — the chat history is replaced by the empty list rather than left
holding the previously displayed messages, for every prior state. -/
theorem loadChatHistory_failure_clears (st : AppState) :
    (loadChatHistory st HistoryResponse.httpError).chatHistory = []
  ∧ (loadChatHistory st HistoryResponse.networkError).chatHistory = [] :=
  ⟨rfl, rfl⟩

end LegalAI
